import Mathlib

/-!
Shallow embedding of src/model.js (CD_Model / Model_Collection).

JavaScript numbers are modelled as integers (every value the claims exercise
is an integer), with NaN as an explicit value.  Parameter maps, records and
plain objects are association lists with unique keys; reading an absent key
yields the undefined value, as in JavaScript.
-/

/-- A JavaScript primitive value as it occurs in parameter maps, records and
arguments of the model: an (integer) number, NaN, a string, a boolean,
null, or undefined. -/
inductive JVal where
  | num (n : Int)
  | nan
  | str (s : String)
  | bool (b : Bool)
  | nullv
  | undef
deriving DecidableEq, Repr

/-- JavaScript truthiness of the modelled values. -/
def truthy : JVal → Bool
  | .num n => n != 0
  | .nan => false
  | .str s => s != ""
  | .bool b => b
  | .nullv => false
  | .undef => false

/-- JavaScript whitespace characters recognised by trimming. -/
def jsWhitespace (c : Char) : Bool := [9, 10, 11, 12, 13, 32].contains c.toNat

/-- Trim leading and trailing whitespace from a character list. -/
def trimChars (cs : List Char) : List Char :=
  ((cs.dropWhile jsWhitespace).reverse.dropWhile jsWhitespace).reverse

/-- Value of the longest leading run of decimal digits, none when there is no digit. -/
def leadingDigitsVal (cs : List Char) : Option Nat :=
  let ds := cs.takeWhile Char.isDigit
  if ds.isEmpty then none
  else some (ds.foldl (fun a c => a * 10 + (c.toNat - 48)) 0)

/-- Value of an all-digit list, none when empty or when any non-digit occurs. -/
def allDigitsVal (cs : List Char) : Option Nat :=
  if cs.isEmpty || !(cs.all Char.isDigit) then none
  else some (cs.foldl (fun a c => a * 10 + (c.toNat - 48)) 0)

/-- JavaScript Number(string) coercion restricted to integer literals:
whitespace trimmed, the empty string is 0, otherwise an optional sign
followed only by digits; anything else is NaN (none). -/
def strToNumber (s : String) : Option Int :=
  match trimChars s.data with
  | [] => some 0
  | c :: rest =>
    if c = '-' then (allDigitsVal rest).map (fun n => -(n : Int))
    else if c = '+' then (allDigitsVal rest).map (fun n => (n : Int))
    else (allDigitsVal (c :: rest)).map (fun n => (n : Int))

/-- JavaScript parseInt(string): optional sign, then the longest leading run
of digits; NaN (none) when that run is empty. -/
def parseIntStr (s : String) : Option Int :=
  match trimChars s.data with
  | [] => none
  | c :: rest =>
    if c = '-' then (leadingDigitsVal rest).map (fun n => -(n : Int))
    else if c = '+' then (leadingDigitsVal rest).map (fun n => (n : Int))
    else (leadingDigitsVal (c :: rest)).map (fun n => (n : Int))

/-- JavaScript ToNumber on the modelled values; none is NaN. -/
def toNumber : JVal → Option Int
  | .num n => some n
  | .nan => none
  | .str s => strToNumber s
  | .bool b => some (if b then 1 else 0)
  | .nullv => some 0
  | .undef => none

/-- JavaScript parseInt applied to a value (the value is first converted to
its string form; for the non-number non-string values that string has no
leading digits, so the result is NaN). -/
def jsParseInt : JVal → Option Int
  | .num n => some n
  | .str s => parseIntStr s
  | _ => none

/-- JavaScript ToString on the modelled values. -/
def jsToStr : JVal → String
  | .num n => toString n
  | .nan => "NaN"
  | .str s => s
  | .bool b => if b then "true" else "false"
  | .nullv => "null"
  | .undef => "undefined"

/-- JavaScript unary plus. -/
def jsToNum (v : JVal) : JVal :=
  match toNumber v with
  | some n => .num n
  | none => .nan

/-- JavaScript binary plus: string concatenation when either operand is a
string, numeric addition otherwise (NaN absorbing). -/
def jsAdd (a b : JVal) : JVal :=
  match a, b with
  | .str x, _ => .str (x ++ jsToStr b)
  | _, .str y => .str (jsToStr a ++ y)
  | _, _ =>
    match toNumber a, toNumber b with
    | some x, some y => .num (x + y)
    | _, _ => .nan

/-- JavaScript subtraction: always numeric. -/
def jsSub (a b : JVal) : JVal :=
  match toNumber a, toNumber b with
  | some x, some y => .num (x - y)
  | _, _ => .nan

/-- JavaScript multiplication: always numeric. -/
def jsMul (a b : JVal) : JVal :=
  match toNumber a, toNumber b with
  | some x, some y => .num (x * y)
  | _, _ => .nan

/-- JavaScript logical or: the first operand when truthy, else the second. -/
def jsOr (a b : JVal) : JVal := if truthy a then a else b

/-- Strict equality of two JavaScript numbers given as Option Int with none
for NaN: NaN is equal to nothing, including itself. -/
def optIntEq : Option Int → Option Int → Bool
  | some x, some y => x == y
  | _, _ => false

/-- JavaScript strict equality on the modelled values. -/
def strictEq : JVal → JVal → Bool
  | .num a, .num b => a == b
  | .str a, .str b => a == b
  | .bool a, .bool b => a == b
  | .nullv, .nullv => true
  | .undef, .undef => true
  | _, _ => false

/-- JavaScript loose equality on the modelled values: numeric coercion
across number, string and boolean; null and undefined equal only each
other; NaN equal to nothing. -/
def looseEq : JVal → JVal → Bool
  | .num a, .num b => a == b
  | .str a, .str b => a == b
  | .bool a, .bool b => a == b
  | .nullv, .nullv => true
  | .undef, .undef => true
  | .nullv, .undef => true
  | .undef, .nullv => true
  | .num a, .str s =>
    match strToNumber s with
    | some b => a == b
    | none => false
  | .str s, .num a =>
    match strToNumber s with
    | some b => a == b
    | none => false
  | .bool x, .num a => (if x then (1 : Int) else 0) == a
  | .num a, .bool x => a == (if x then (1 : Int) else 0)
  | .bool x, .str s =>
    match strToNumber s with
    | some b => (if x then (1 : Int) else 0) == b
    | none => false
  | .str s, .bool x =>
    match strToNumber s with
    | some b => b == (if x then (1 : Int) else 0)
    | none => false
  | _, _ => false

/-- A plain JavaScript object used as a parameter map or a record:
an association list with unique keys, in property enumeration order. -/
abbrev Params := List (String × JVal)

/-- Property read: undefined when the key is absent. -/
def getProp : Params → String → JVal
  | [], _ => .undef
  | (k, v) :: rest, key => if k = key then v else getProp rest key

/-- The JavaScript `in` test for a key. -/
def hasKey : Params → String → Bool
  | [], _ => false
  | (k, _) :: rest, key => k == key || hasKey rest key

/-- Property write: overwrites the key in place when present, else appends. -/
def setProp : Params → String → JVal → Params
  | [], key, v => [(key, v)]
  | (k, w) :: rest, key, v =>
    if k = key then (key, v) :: rest else (k, w) :: setProp rest key v

/-- The JavaScript delete operator on a key. -/
def eraseProp : Params → String → Params
  | [], _ => []
  | (k, w) :: rest, key =>
    if k = key then eraseProp rest key else (k, w) :: eraseProp rest key

/-- jQuery extend of two maps into a fresh one: keys of b override keys of a. -/
def extendParams (a b : Params) : Params :=
  b.foldl (fun acc kv => setProp acc kv.1 kv.2) a

/-- A record of the collection store (model.js wraps each payload in a
Result object; its own attribute map is what the local query engine reads). -/
abbrev Rec := Params

/-- Hex digit character, uppercase. -/
def hexDigitChar (n : Nat) : Char :=
  if n < 10 then Char.ofNat (48 + n) else Char.ofNat (55 + n)

/-- Percent-encoding of one byte. -/
def byteHex (b : UInt8) : String :=
  String.mk [Char.ofNat 37, hexDigitChar (b.toNat / 16), hexDigitChar (b.toNat % 16)]

/-- Characters left intact by encodeURIComponent: letters, digits and
the marks minus, underscore, dot, bang, tilde, star, quote, parens. -/
def isUnreservedChar (c : Char) : Bool :=
  (65 ≤ c.toNat && c.toNat ≤ 90) || (97 ≤ c.toNat && c.toNat ≤ 122) ||
  (48 ≤ c.toNat && c.toNat ≤ 57) ||
  [45, 95, 46, 33, 126, 42, 39, 40, 41].contains c.toNat

/-- JavaScript encodeURIComponent. -/
def encodeURIComponent (s : String) : String :=
  s.data.foldl
    (fun acc c =>
      if isUnreservedChar c then acc.push c
      else acc ++ String.join (((String.singleton c).toUTF8.toList).map byteHex))
    ""

/-- The query-string loop shared by api get (model.js lines 289-309) and
url (lines 644-660): serialize own properties in order, skipping entries
whose value is exactly null; the first kept entry is prefixed with a
question mark, later ones joined with ampersands. -/
def buildQuery : Params → String → String
  | [], acc => acc
  | (k, v) :: rest, acc =>
    if v = .nullv then buildQuery rest acc
    else
      let piece := encodeURIComponent k ++ "=" ++ encodeURIComponent (jsToStr v)
      buildQuery rest (if acc = "" then "?" ++ piece else acc ++ "&" ++ piece)

/-- The endpoint normalisation replace of trailing slashes. -/
def stripTrailingSlashes (s : String) : String :=
  String.mk ((s.data.reverse.dropWhile (fun c => c = '/')).reverse)

/-- The params argument of api get and of url: a plain object, or any
other value (used verbatim when truthy). -/
inductive GetParams where
  | obj (m : Params)
  | raw (v : JVal)
deriving DecidableEq, Repr

/-- CD_Model.prototype.url(params, segments) (model.js lines 634-672);
params = none models a call without the argument, which serializes a copy
of settings.params. -/
def urlOf (endpoint : String) (params : Option GetParams) (settingsParams : Params)
    (segments : Option String) : String :=
  let qs :=
    match params with
    | none => buildQuery settingsParams ""
    | some (.obj m) => buildQuery m ""
    | some (.raw v) => if truthy v then jsToStr v else ""
  let qs2 :=
    match segments with
    | some sg => if sg ≠ "" then sg ++ "/" ++ qs else qs
    | none => qs
  stripTrailingSlashes endpoint ++ "/" ++ qs2

/-- The value held in the retained reference for request supersession:
false (the prototype default set on line 119), the opt-in sentinels null
and true anticipated by the beforeSend guard, or a retained request
handle identified by a number. -/
inductive LastReq where
  | jfalse
  | jnull
  | jtrue
  | handle (id : Nat)
deriving DecidableEq, Repr

/-- Result of a dispatched request: the built url, the method, the attached
body, the identity of the previously retained request on which abort was
invoked by beforeSend (none when nothing was aborted), and the value of the
retained reference after the call. -/
structure MkResult where
  url : String
  method : String
  body : Option Params
  aborted : Option Nat
  last : LastReq
deriving DecidableEq, Repr

/-- The private request method (model.js lines 238-273).  It throws
synchronously (error result) before anything is dispatched when the
endpoint setting is unset; otherwise it builds the request object.  When
the retained reference is not false, beforeSend aborts the previously
retained handle (unless the reference is the null or true sentinel) and
the new request replaces the reference; when the reference is false (the
prototype default) nothing is retained and nothing is ever aborted. -/
def _make_request (endpoint : String) (last : LastReq) (method : String)
    (endpointArg : JVal) (data : Option Params) (newId : Nat) : Except String MkResult :=
  if endpoint = "" then .error "Error: The API Toolset has not been setup correctly."
  else
    let url := stripTrailingSlashes endpoint ++ "/" ++ jsToStr endpointArg
    let body := if method ≠ "get" then data else none
    match last with
    | .jfalse => .ok ⟨url, method, body, none, .jfalse⟩
    | .jnull => .ok ⟨url, method, body, none, .handle newId⟩
    | .jtrue => .ok ⟨url, method, body, none, .handle newId⟩
    | .handle i => .ok ⟨url, method, body, some i, .handle newId⟩

/-- api get (model.js lines 289-321): builds the query string, prefixes the
optional path segment, and performs a get with no body. -/
def api_get (endpoint : String) (last : LastReq) (params : GetParams)
    (seg : Option String) (newId : Nat) : Except String MkResult :=
  let qs :=
    match params with
    | .obj m => buildQuery m ""
    | .raw v => if truthy v then jsToStr v else ""
  let qs2 :=
    match seg with
    | some sg => if sg ≠ "" then sg ++ "/" ++ qs else qs
    | none => qs
  _make_request endpoint last "get" (.str qs2) none newId

/-- api put (model.js lines 329-331). -/
def api_put (endpoint : String) (last : LastReq) (data : Option Params)
    (path : JVal) (newId : Nat) : Except String MkResult :=
  _make_request endpoint last "put" path data newId

/-- api post (model.js lines 339-341). -/
def api_post (endpoint : String) (last : LastReq) (data : Option Params)
    (path : JVal) (newId : Nat) : Except String MkResult :=
  _make_request endpoint last "post" path data newId

/-- api delete (model.js lines 349-351): the call passes only the method and
the params argument on to the request method, so the data argument is
dropped and no body is attached. -/
def api_delete (endpoint : String) (last : LastReq) (data : Option Params)
    (params : JVal) (newId : Nat) : Except String MkResult :=
  _make_request endpoint last "delete" params none newId

/-- Response lifecycle of a set of issued requests: each request that
settles successfully appends the decoded records of its response through
the done handler (CD_Model.call pushes them); a request whose identity is
in the aborted list never runs its done handler, because jQuery fires no
done callback for an aborted request. -/
def settle_fold (aborted : List Nat) (initStore : List Rec)
    (settles : List (Nat × List Rec)) : List Rec :=
  settles.foldl (fun st pr => if pr.1 ∈ aborted then st else st ++ pr.2) initStore

/-- Outcome of one issued request as seen by the store: none means the
request failed or timed out, and since only the done handler touches the
collection nothing happens; some rs means success, and the done handler
CD_Model.call(mc, response[settings.attribute]) pushes each decoded record
onto the collection. -/
def fetch_apply (store : List Rec) (outcome : Option (List Rec)) : List Rec :=
  match outcome with
  | none => store
  | some rs => store ++ rs

/-- A Model_Collection instance: its own enumerable record slots (the
store), the params object of its settings (which lives on the prototype
and is mutated in place), and the initialisation bookkeeping own
properties set by the constructor.  next_id is model bookkeeping used to
allocate fresh deferred identities. -/
structure MC where
  params : Params
  store : List Rec
  init_ajax : JVal
  init_own : Bool
  init_promise : Nat
  next_id : Nat
deriving DecidableEq, Repr

/-- empty (model.js lines 800-811): deletes every own enumerable property
of the instance — the record slots and also the constructor-set fields
read through init_ajax and init_own; settings lives on the prototype and
survives, so params is untouched. -/
def empty_op (m : MC) : MC :=
  { m with store := [], init_ajax := .undef, init_own := false }

/-- What one init call returns: the instance afterwards, the identity of
the deferred whose promise is handed back, and whether this very call
issued a network request. -/
structure InitOut where
  inst : MC
  promise : Nat
  dispatched : Bool
deriving DecidableEq, Repr

/-- init(params) (model.js lines 137-161): when the guard value is falsy
it merges plain-object params into the settings, issues the request (whose
done handler pushes the decoded records), stores the request as the new
deferred and sets the guard to true; otherwise it only returns the promise
of the retained deferred. -/
def init_op (m : MC) (ps : Option Params) (outcome : Option (List Rec)) : InitOut :=
  if truthy m.init_ajax then ⟨m, m.init_promise, false⟩
  else
    let params1 :=
      match ps with
      | some q => extendParams m.params q
      | none => m.params
    ⟨{ m with
        params := params1,
        store := fetch_apply m.store outcome,
        init_ajax := .bool true,
        init_own := true,
        init_promise := m.next_id,
        next_id := m.next_id + 1 },
      m.next_id, true⟩

/-- param(param, value) (model.js lines 397-409): sets the key when the
value is truthy, deletes it when the key is given without a truthy value,
and does nothing when the key is omitted.  The body contains no api call,
so the request flag is false on every path. -/
def param_op (m : MC) (key : Option String) (value : Option JVal) : MC × Bool :=
  match key with
  | none => (m, false)
  | some k =>
    if truthy (value.getD .undef) then
      ({ m with params := setProp m.params k (value.getD .undef) }, false)
    else
      ({ m with params := eraseProp m.params k }, false)

/-- filter(field, filter) (model.js lines 423-444): both the setting and
the deleting branch reset the offset to 0, and the request is issued on
every path, its done handler pushing the decoded records. -/
def filter_op (m : MC) (field : Option String) (value : Option JVal)
    (outcome : Option (List Rec)) : MC × Bool :=
  let params1 :=
    match field with
    | none => m.params
    | some k =>
      if truthy (value.getD .undef) then
        setProp (setProp m.params k (value.getD .undef)) "offset" (.num 0)
      else
        setProp (eraseProp m.params k) "offset" (.num 0)
  ({ m with params := params1, store := fetch_apply m.store outcome }, true)

/-- sort(sort) (model.js lines 455-475): the setting branch resets the
offset to 0; the deleting branch removes the sort key and leaves the
offset alone; the request is issued on every path. -/
def sort_op (m : MC) (sortVal : Option JVal) (outcome : Option (List Rec)) : MC × Bool :=
  let params1 :=
    match sortVal with
    | some v => setProp (setProp m.params "sort" v) "offset" (.num 0)
    | none => eraseProp m.params "sort"
  ({ m with params := params1, store := fetch_apply m.store outcome }, true)

/-- search(search) (model.js lines 488-508): like sort but on the reserved
key q. -/
def search_op (m : MC) (searchVal : Option JVal) (outcome : Option (List Rec)) : MC × Bool :=
  let params1 :=
    match searchVal with
    | some v => setProp (setProp m.params "q" v) "offset" (.num 0)
    | none => eraseProp m.params "q"
  ({ m with params := params1, store := fetch_apply m.store outcome }, true)

/-- next(count) (model.js lines 521-549): rejected without a network call
when no limit key exists (flag false); otherwise the given count overwrites
the limit through unary plus, a missing offset is first set to 0, and the
limit is added onto the offset with the JavaScript plus operator before
the refetch is issued. -/
def next_op (m : MC) (count : Option JVal) (outcome : Option (List Rec)) : MC × Bool :=
  if !(hasKey m.params "limit") then (m, false)
  else
    let p1 :=
      match count with
      | some c => setProp m.params "limit" (jsToNum c)
      | none => m.params
    let p2 := if hasKey p1 "offset" then p1 else setProp p1 "offset" (.num 0)
    let p3 := setProp p2 "offset" (jsAdd (getProp p2 "offset") (getProp p2 "limit"))
    ({ m with params := p3, store := fetch_apply m.store outcome }, true)

/-- prev(count) (model.js lines 592-620): as next, subtracting the limit. -/
def prev_op (m : MC) (count : Option JVal) (outcome : Option (List Rec)) : MC × Bool :=
  if !(hasKey m.params "limit") then (m, false)
  else
    let p1 :=
      match count with
      | some c => setProp m.params "limit" (jsToNum c)
      | none => m.params
    let p2 := if hasKey p1 "offset" then p1 else setProp p1 "offset" (.num 0)
    let p3 := setProp p2 "offset" (jsSub (getProp p2 "offset") (getProp p2 "limit"))
    ({ m with params := p3, store := fetch_apply m.store outcome }, true)

/-- page(page, count) (model.js lines 551-579): as next, but the offset is
set to the (possibly count-overwritten) limit times the page number minus
one. -/
def page_op (m : MC) (pageN : Int) (count : Option JVal) (outcome : Option (List Rec)) :
    MC × Bool :=
  if !(hasKey m.params "limit") then (m, false)
  else
    let p1 :=
      match count with
      | some c => setProp m.params "limit" (jsToNum c)
      | none => m.params
    let p2 := if hasKey p1 "offset" then p1 else setProp p1 "offset" (.num 0)
    let p3 := setProp p2 "offset" (jsMul (getProp p2 "limit") (.num (pageN - 1)))
    ({ m with params := p3, store := fetch_apply m.store outcome }, true)

/-- replace(params) (model.js lines 771-790): optionally swaps the whole
params map, calls empty — which clears the store and the initialisation
fields before the request is even issued — then refetches; the done
handler pushes the decoded records onto the now empty store. -/
def replace_op (m : MC) (ps : Option Params) (outcome : Option (List Rec)) : MC × Bool :=
  let m1 := { m with params := ps.getD m.params }
  let m2 := empty_op m1
  ({ m2 with store := fetch_apply m2.store outcome }, true)

/-- The params map whose URL url_next returns (model.js lines 686-701): a
copy of settings.params whose offset becomes the unary plus of the copied
offset, plus the resolved limit; the copy is returned unchanged when no
limit resolves.  Note that the unary plus of an absent offset is NaN. -/
def url_next_params (p : Params) (count : Option JVal) : Params :=
  let limit := jsOr (count.getD .undef) (getProp p "limit")
  if !(truthy limit) then p
  else setProp p "offset" (jsAdd (jsToNum (getProp p "offset")) limit)

/-- url_next(count): serializes the updated copy of the params; when no
limit resolves both source branches serialize the unchanged copy, so the
branches coincide on the returned string. -/
def url_next (endpoint : String) (p : Params) (count : Option JVal) : String :=
  urlOf endpoint (some (.obj (url_next_params p count))) p none

/-- The params map whose URL url_prev returns (model.js lines 716-731). -/
def url_prev_params (p : Params) (count : Option JVal) : Params :=
  let limit := jsOr (count.getD .undef) (getProp p "limit")
  if !(truthy limit) then p
  else setProp p "offset" (jsSub (jsToNum (getProp p "offset")) limit)

/-- url_prev(count). -/
def url_prev (endpoint : String) (p : Params) (count : Option JVal) : String :=
  urlOf endpoint (some (.obj (url_prev_params p count))) p none

/-- The params map whose URL url_page returns (model.js lines 746-761).
Line 758 computes the offset as settings.params.limit times the page
number minus one — the original limit from the settings, not the local
limit variable just resolved from the count argument (which is used only
to decide whether a limit is resolvable at all). -/
def url_page_params (p : Params) (pageN : Int) (count : Option JVal) : Params :=
  let limit := jsOr (count.getD .undef) (getProp p "limit")
  if !(truthy limit) then p
  else setProp p "offset" (jsMul (getProp p "limit") (.num (pageN - 1)))

/-- url_page(page, count). -/
def url_page (endpoint : String) (p : Params) (pageN : Int) (count : Option JVal) : String :=
  urlOf endpoint (some (.obj (url_page_params p pageN count))) p none

/-- CD_Model.prototype.get(id) (model.js lines 368-382): the first own
record whose id attribute exists (typeof guard) and whose parseInt equals
the parseInt of the argument under strict equality; none models the null
returned when no record passes. -/
def cd_get (store : List Rec) (idv : JVal) : Option Rec :=
  store.find? (fun r =>
    !(getProp r "id" == JVal.undef) &&
      optIntEq (jsParseInt (getProp r "id")) (jsParseInt idv))

/-- The id comparator in the words of the specification: two ids are the
same exactly when their numeric values are equal, even if one is a string
and one a number; an id with no numeric value matches nothing. -/
def idNumEq (r : Rec) (idv : JVal) : Bool :=
  optIntEq (jsParseInt (getProp r "id")) (jsParseInt idv)

/-- One where clause on one record (model.js line 852): the attribute is
present (typeof guard) and loosely equal to the clause value. -/
def clause_match (r : Rec) (k : String) (w : JVal) : Bool :=
  !(getProp r k == JVal.undef) && looseEq (getProp r k) w

/-- The truth table built for one record: the record is included only when
every clause of the where object holds. -/
def matches_all (r : Rec) (w : Params) : Bool :=
  w.all (fun kv => clause_match r kv.1 kv.2)

/-- The record scan of get_where with the break once the matched count is
strictly equal to the limit (model.js lines 839-895). -/
def gw_loop : List Rec → Params → JVal → List Rec → List Rec
  | [], _, _, matched => matched
  | r :: rs, w, limit, matched =>
    let matched1 := if matches_all r w then matched ++ [r] else matched
    if strictEq (.num (Int.ofNat matched1.length)) limit then matched1
    else gw_loop rs w limit matched1

/-- What get_where returns: an array of records, or — only on the strict
limit of one path — the single matched record itself (none models the
undefined obtained from indexing an empty array). -/
inductive WhereRes where
  | arr (rs : List Rec)
  | one (r : Option Rec)
deriving DecidableEq, Repr

/-- get_where(where, limit) (model.js lines 824-898): an empty array for a
non-object where argument (whereArg none); otherwise the scan, returned as
the first element when the limit is strictly the number one, as the whole
matched array otherwise.  A missing limit argument is the undefined
value. -/
def get_where (store : List Rec) (whereArg : Option Params) (limit : JVal) : WhereRes :=
  match whereArg with
  | none => .arr []
  | some w =>
    let matched := gw_loop store w limit []
    if strictEq limit (.num 1) then .one matched.head? else .arr matched

theorem getProp_setProp_self (p : Params) (k : String) (v : JVal) :
    getProp (setProp p k v) k = v := by
  induction p with
  | nil => simp [setProp, getProp]
  | cons kv rest ih =>
    obtain ⟨k1, v1⟩ := kv
    by_cases h : k1 = k
    · simp [setProp, h, getProp]
    · simp [setProp, h, getProp, ih]

theorem getProp_setProp_ne (p : Params) (k k2 : String) (v : JVal) (h : k ≠ k2) :
    getProp (setProp p k v) k2 = getProp p k2 := by
  induction p with
  | nil => simp [setProp, getProp, h]
  | cons kv rest ih =>
    obtain ⟨k1, v1⟩ := kv
    by_cases h1 : k1 = k
    · simp [setProp, h1, getProp, h, Ne.symm h]
    · by_cases h2 : k1 = k2
      · simp [setProp, h1, getProp, h2, Ne.symm h]
      · simp [setProp, h1, getProp, h2, ih]

theorem hasKey_setProp_ne (p : Params) (k k2 : String) (v : JVal) (h : k ≠ k2) :
    hasKey (setProp p k v) k2 = hasKey p k2 := by
  induction p with
  | nil => simp [setProp, hasKey, h]
  | cons kv rest ih =>
    obtain ⟨k1, v1⟩ := kv
    by_cases h1 : k1 = k
    · simp [setProp, h1, hasKey, h]
    · simp [setProp, h1, hasKey, ih]

theorem getProp_eraseProp_ne (p : Params) (k k2 : String) (h : k ≠ k2) :
    getProp (eraseProp p k) k2 = getProp p k2 := by
  induction p with
  | nil => simp [eraseProp]
  | cons kv rest ih =>
    obtain ⟨k1, v1⟩ := kv
    by_cases h1 : k1 = k
    · have h2 : k1 ≠ k2 := h1 ▸ h
      simp [eraseProp, h1, getProp, h2, ih, h]
    · by_cases h2 : k1 = k2
      · simp [eraseProp, h1, getProp, h2, Ne.symm h]
      · simp [eraseProp, h1, getProp, h2, ih]

theorem hasKey_of_getProp_ne_undef (p : Params) (k : String) (h : getProp p k ≠ .undef) :
    hasKey p k = true := by
  induction p with
  | nil => simp [getProp] at h
  | cons kv rest ih =>
    obtain ⟨k1, v1⟩ := kv
    by_cases h1 : k1 = k
    · simp [hasKey, h1]
    · simp [getProp, h1] at h
      simp [hasKey, ih h]

theorem strictEq_num_undef (x : Int) : strictEq (.num x) .undef = false := rfl

theorem strictEq_num_num (x y : Int) : strictEq (.num x) (.num y) = (x == y) := rfl

theorem gw_loop_no_limit (w : Params) (recs : List Rec) : ∀ acc : List Rec,
    gw_loop recs w .undef acc = acc ++ recs.filter (fun r => matches_all r w) := by
  induction recs with
  | nil => intro acc; simp [gw_loop]
  | cons r rs ih =>
    intro acc
    by_cases h : matches_all r w
    · simp [gw_loop, h, strictEq_num_undef, ih, List.filter_cons_of_pos, h]
    · simp [gw_loop, h, strictEq_num_undef, ih, List.filter_cons_of_neg, h]

theorem gw_loop_limit_one (w : Params) (recs : List Rec) :
    gw_loop recs w (.num 1) [] =
      (match recs.find? (fun r => matches_all r w) with
        | some r => [r]
        | none => []) := by
  induction recs with
  | nil => simp [gw_loop, List.find?]
  | cons r rs ih =>
    by_cases h : matches_all r w
    · simp [gw_loop, h, List.find?_cons_of_pos, strictEq_num_num]
    · simp [gw_loop, h, List.find?_cons_of_neg, strictEq_num_num, ih]

/-- Claim C1, as stated, is false: on a default collection instance the
retained reference is the prototype value false (model.js line 119), and
the request method only retains and aborts when that reference is not
false, so issuing a second fetch while the first is pending aborts
nothing (both results carry aborted = none and leave the reference
false), and when the first request settles after the second its response
is still appended to the store: the final store is not only the second
response. -/
theorem C1_counterexample :
    _make_request "https://api" .jfalse "get" (.str "") none 1 =
      .ok ⟨"https://api/", "get", none, none, .jfalse⟩ ∧
    _make_request "https://api" .jfalse "get" (.str "") none 2 =
      .ok ⟨"https://api/", "get", none, none, .jfalse⟩ ∧
    settle_fold [] [] [(2, [[("x", JVal.num 2)]]), (1, [[("x", JVal.num 1)]])] =
      [[("x", JVal.num 2)], [("x", JVal.num 1)]] ∧
    ([[("x", JVal.num 2)], [("x", JVal.num 1)]] : List Rec) ≠ [[("x", JVal.num 2)]] :=
  ⟨rfl, rfl, by decide, by decide⟩

/-- Claim C1 (corrected): supersession is opt-in.  On an instance whose
retained reference was initialised to any non-false value, a first
request becomes the retained handle, and a second request issued while it
is retained invokes abort on it immediately before being dispatched
(beforeSend) and replaces the reference; since an aborted request never
runs its done handler, the final store is the initial store plus only the
second response, in either settle order. -/
theorem C1_supersession_opt_in
    (e : String) (last0 : LastReq) (a b : Nat) (q1 q2 : JVal)
    (rA rB initStore : List Rec)
    (he : e ≠ "") (h0 : last0 ≠ .jfalse) (hab : a ≠ b) :
    ∃ r1 r2,
      _make_request e last0 "get" q1 none a = .ok r1 ∧
      r1.last = .handle a ∧
      _make_request e r1.last "get" q2 none b = .ok r2 ∧
      r2.aborted = some a ∧
      settle_fold [a] initStore [(a, rA), (b, rB)] = initStore ++ rB ∧
      settle_fold [a] initStore [(b, rB), (a, rA)] = initStore ++ rB := by
  have hmem : a ∈ ([a] : List Nat) := List.mem_singleton.mpr rfl
  have hnmem : ¬ b ∈ ([a] : List Nat) := by
    simp only [List.mem_singleton]
    exact Ne.symm hab
  have hsf1 : settle_fold [a] initStore [(a, rA), (b, rB)] = initStore ++ rB := by
    unfold settle_fold
    simp only [List.foldl_cons, List.foldl_nil]
    rw [if_pos hmem, if_neg hnmem]
  have hsf2 : settle_fold [a] initStore [(b, rB), (a, rA)] = initStore ++ rB := by
    unfold settle_fold
    simp only [List.foldl_cons, List.foldl_nil]
    rw [if_neg hnmem, if_pos hmem]
  cases last0 with
  | jfalse => exact absurd rfl h0
  | jnull =>
    refine ⟨⟨stripTrailingSlashes e ++ "/" ++ jsToStr q1, "get", none, none, .handle a⟩,
        ⟨stripTrailingSlashes e ++ "/" ++ jsToStr q2, "get", none, some a, .handle b⟩,
        ?_, rfl, ?_, rfl, hsf1, hsf2⟩ <;>
      simp [_make_request, he]
  | jtrue =>
    refine ⟨⟨stripTrailingSlashes e ++ "/" ++ jsToStr q1, "get", none, none, .handle a⟩,
        ⟨stripTrailingSlashes e ++ "/" ++ jsToStr q2, "get", none, some a, .handle b⟩,
        ?_, rfl, ?_, rfl, hsf1, hsf2⟩ <;>
      simp [_make_request, he]
  | handle i =>
    refine ⟨⟨stripTrailingSlashes e ++ "/" ++ jsToStr q1, "get", none, some i, .handle a⟩,
        ⟨stripTrailingSlashes e ++ "/" ++ jsToStr q2, "get", none, some a, .handle b⟩,
        ?_, rfl, ?_, rfl, hsf1, hsf2⟩ <;>
      simp [_make_request, he]

theorem C1_supersession_opt_in_witness :
    (("https://api" : String) ≠ "" ∧ LastReq.jnull ≠ LastReq.jfalse ∧ (1 : Nat) ≠ 2) ∧
    (∃ r1 r2,
      _make_request "https://api" .jnull "get" (.str "") none 1 = .ok r1 ∧
      r1.last = .handle 1 ∧
      _make_request "https://api" r1.last "get" (.str "") none 2 = .ok r2 ∧
      r2.aborted = some 1 ∧
      settle_fold [1] [] [(1, [[("x", JVal.num 1)]]), (2, [[("x", JVal.num 2)]])] =
        [] ++ [[("x", JVal.num 2)]] ∧
      settle_fold [1] [] [(2, [[("x", JVal.num 2)]]), (1, [[("x", JVal.num 1)]])] =
        [] ++ [[("x", JVal.num 2)]]) :=
  ⟨⟨by decide, by decide, by decide⟩,
    C1_supersession_opt_in "https://api" .jnull 1 2 (.str "") (.str "")
      [[("x", JVal.num 1)]] [[("x", JVal.num 2)]] [] (by decide) (by decide) (by decide)⟩

/-- Claim C2, as stated, is false on the absent-offset case: with params
holding only a limit, next(10) writes offset 10 (a missing offset is
first set to 0), while url_next(10) computes the unary plus of the absent
offset — NaN — plus the limit, which is NaN, not 10. -/
theorem C2_counterexample :
    getProp (url_next_params [("limit", JVal.num 10)] (some (JVal.num 10))) "offset" = JVal.nan ∧
    getProp ((next_op ⟨[("limit", JVal.num 10)], [], JVal.bool false, true, 0, 0⟩
        (some (JVal.num 10)) none).1).params "offset" = JVal.num 10 ∧
    JVal.nan ≠ JVal.num 10 :=
  ⟨by decide, by decide, by decide⟩

/-- Claim C2 (corrected): when the current params do contain a numeric
offset (and a limit key, which next requires), the mutating next and the
pure url_next compute the same new offset, old offset plus limit, for any
nonzero numeric limit argument; next issues its refetch, while url_next
only builds the params copy whose URL is returned. -/
theorem C2_offset_agreement (m : MC) (n l : Int) (o : Option (List Rec))
    (hoff : getProp m.params "offset" = JVal.num n)
    (hlim : hasKey m.params "limit" = true)
    (hl : l ≠ 0) :
    getProp ((next_op m (some (JVal.num l)) o).1).params "offset" = JVal.num (n + l) ∧
    (next_op m (some (JVal.num l)) o).2 = true ∧
    getProp (url_next_params m.params (some (JVal.num l))) "offset" = JVal.num (n + l) := by
  have hlo : ("limit" : String) ≠ "offset" := by decide
  have htr : truthy (JVal.num l) = true := by
    simp [truthy, hl]
  refine ⟨?_, ?_, ?_⟩
  · unfold next_op
    rw [hlim]
    simp only [Bool.not_true, Bool.false_eq_true, if_false]
    have h1 : getProp (setProp m.params "limit" (jsToNum (JVal.num l))) "offset" = JVal.num n := by
      rw [getProp_setProp_ne _ _ _ _ hlo, hoff]
    have h2 : hasKey (setProp m.params "limit" (jsToNum (JVal.num l))) "offset" = true := by
      rw [hasKey_setProp_ne _ _ _ _ hlo]
      exact hasKey_of_getProp_ne_undef _ _ (by rw [hoff]; exact fun hc => JVal.noConfusion hc)
    rw [h2]
    simp only [if_true]
    rw [getProp_setProp_self, h1, getProp_setProp_self]
    simp [jsToNum, toNumber, jsAdd]
  · unfold next_op
    rw [hlim]
    simp
  · unfold url_next_params
    simp only [Option.getD_some, jsOr, htr, if_true, Bool.not_true, Bool.false_eq_true, if_false]
    rw [getProp_setProp_self, hoff]
    simp [jsToNum, toNumber, jsAdd]

theorem C2_offset_agreement_witness :
    (getProp ([("offset", JVal.num 0), ("limit", JVal.num 10)] : Params) "offset" = JVal.num 0 ∧
     hasKey ([("offset", JVal.num 0), ("limit", JVal.num 10)] : Params) "limit" = true ∧
     (10 : Int) ≠ 0) ∧
    (getProp ((next_op ⟨[("offset", JVal.num 0), ("limit", JVal.num 10)], [], JVal.bool false,
        true, 0, 0⟩ (some (JVal.num 10)) none).1).params "offset" = JVal.num (0 + 10) ∧
     (next_op ⟨[("offset", JVal.num 0), ("limit", JVal.num 10)], [], JVal.bool false,
        true, 0, 0⟩ (some (JVal.num 10)) none).2 = true ∧
     getProp (url_next_params [("offset", JVal.num 0), ("limit", JVal.num 10)]
        (some (JVal.num 10))) "offset" = JVal.num (0 + 10)) :=
  ⟨⟨by decide, by decide, by decide⟩,
    C2_offset_agreement
      ⟨[("offset", JVal.num 0), ("limit", JVal.num 10)], [], JVal.bool false, true, 0, 0⟩
      0 10 none (by decide) (by decide) (by decide)⟩

/-- Claim C3: the claim is right about the intent and line 758 of the code
is a slip.  With settings params limit 10, page(2, 5) overwrites the limit
with the count 5 and computes offset 5 = 5 times (2 - 1), as the claim
says; url_page(2, 5) resolves the same limit 5 to pass its guard but then
multiplies the original settings limit 10, yielding offset 10 — even
though its own parameter documentation says the given count is used to
get the correct URL, and the parallel url_next and url_prev both use the
resolved local limit. -/
theorem C3_url_page_ignores_count :
    getProp ((page_op ⟨[("limit", JVal.num 10)], [], JVal.bool false, true, 0, 0⟩ 2
        (some (JVal.num 5)) none).1).params "offset" = JVal.num 5 ∧
    getProp (url_page_params [("limit", JVal.num 10)] 2 (some (JVal.num 5))) "offset" =
      JVal.num 10 ∧
    JVal.num 10 ≠ JVal.num 5 :=
  ⟨by decide, by decide, by decide⟩

/-- Claim C4, as stated, is false: param neither resets the offset nor
issues any request (its request flag is false and a previous offset of 5
survives a param call), and the deleting form of sort also leaves a
nonzero offset in place. -/
theorem C4_counterexample :
    (param_op ⟨[("offset", JVal.num 5)], [], JVal.bool false, true, 0, 0⟩ (some "x")
        (some (JVal.str "y"))).2 = false ∧
    getProp ((param_op ⟨[("offset", JVal.num 5)], [], JVal.bool false, true, 0, 0⟩ (some "x")
        (some (JVal.str "y"))).1).params "offset" = JVal.num 5 ∧
    getProp ((sort_op ⟨[("offset", JVal.num 5)], [], JVal.bool false, true, 0, 0⟩
        none none).1).params "offset" = JVal.num 5 ∧
    JVal.num 5 ≠ JVal.num 0 :=
  ⟨rfl, by decide, by decide, by decide⟩

/-- Claim C4 (corrected): filter resets the offset to 0 and refetches on
every call made with a field, in both its setting and deleting form; sort
and search refetch on every call but reset the offset only when a value
is supplied — their deleting calls leave the offset unchanged; and param
only mutates the parameter map, never resetting the offset and never
issuing a request. -/
theorem C4_mutator_effects (m : MC) (k : String) (v : Option JVal)
    (sv qv : JVal) (o : Option (List Rec)) :
    getProp ((filter_op m (some k) v o).1).params "offset" = JVal.num 0 ∧
    (filter_op m (some k) v o).2 = true ∧
    getProp ((sort_op m (some sv) o).1).params "offset" = JVal.num 0 ∧
    (sort_op m (some sv) o).2 = true ∧
    (sort_op m none o).2 = true ∧
    getProp ((sort_op m none o).1).params "offset" = getProp m.params "offset" ∧
    getProp ((search_op m (some qv) o).1).params "offset" = JVal.num 0 ∧
    (search_op m (some qv) o).2 = true ∧
    (search_op m none o).2 = true ∧
    getProp ((search_op m none o).1).params "offset" = getProp m.params "offset" ∧
    (param_op m (some k) v).2 = false ∧
    (param_op m none v).2 = false := by
  refine ⟨?_, rfl, ?_, rfl, rfl, ?_, ?_, rfl, rfl, ?_, ?_, rfl⟩
  · by_cases hv : truthy (v.getD .undef) <;> simp [filter_op, hv, getProp_setProp_self]
  · simp [sort_op, getProp_setProp_self]
  · simp [sort_op, getProp_eraseProp_ne _ _ _ (by decide : ("sort" : String) ≠ "offset")]
  · simp [search_op, getProp_setProp_self]
  · simp [search_op, getProp_eraseProp_ne _ _ _ (by decide : ("q" : String) ≠ "offset")]
  · by_cases hv : truthy (v.getD .undef) <;> simp [param_op, hv]

theorem C4_mutator_effects_witness :
    getProp ((filter_op ⟨[("offset", JVal.num 7)], [], JVal.bool false, true, 0, 0⟩
        (some "status") (some (JVal.str "active")) none).1).params "offset" = JVal.num 0 :=
  (C4_mutator_effects ⟨[("offset", JVal.num 7)], [], JVal.bool false, true, 0, 0⟩
    "status" (some (JVal.str "active")) (JVal.str "s") (JVal.str "q") none).1

/-- Claim C5: get_where includes a record exactly when every clause of the
where object loosely equals the same-named attribute of the record (the
conjunction is matches_all, built from the presence guard and loose
equality of each clause, so an absent attribute never matches): with no
limit the result is exactly the filter of the store by that predicate; a
non-object where argument yields an empty array; and a limit strictly
equal to the number one yields the first matching record itself, none
standing for the undefined returned when nothing matches. -/
theorem C5_get_where_matches (store : List Rec) (w : Params) (limit : JVal) :
    get_where store none limit = .arr [] ∧
    get_where store (some w) .undef = .arr (store.filter (fun r => matches_all r w)) ∧
    get_where store (some w) (.num 1) = .one (store.find? (fun r => matches_all r w)) := by
  refine ⟨rfl, ?_, ?_⟩
  · calc get_where store (some w) .undef = .arr (gw_loop store w .undef []) := rfl
      _ = .arr ([] ++ store.filter (fun r => matches_all r w)) := by
          rw [gw_loop_no_limit]
      _ = .arr (store.filter (fun r => matches_all r w)) := by rw [List.nil_append]
  · calc get_where store (some w) (.num 1) = .one (gw_loop store w (.num 1) []).head? := rfl
      _ = .one (store.find? (fun r => matches_all r w)) := by
          rw [gw_loop_limit_one]
          cases store.find? (fun r => matches_all r w) <;> rfl

/-- Claim C6, as stated, is false for replace: replace calls empty before
its request is issued, so when that request fails the store is left
empty, not exactly as it was before the request (here a one-record store
ends up empty). -/
theorem C6_counterexample :
    ((replace_op ⟨[("limit", JVal.num 10)], [[("id", JVal.num 1)]], JVal.bool true, true, 0, 1⟩
        none none).1).store = [] ∧
    (([] : List Rec) ≠ [[("id", JVal.num 1)]]) :=
  ⟨rfl, by decide⟩

/-- Claim C6 (corrected): for filter, sort, search, next, prev, page and
init a failed request leaves the store exactly as it was before the
request, and a failed response is never partially applied; replace,
however, empties the store synchronously before dispatching, so its
failure leaves the store empty rather than with its prior contents, while
a successful replace leaves exactly the decoded response records. -/
theorem C6_failure_frame (m : MC) (f : Option String) (v sv qv c : Option JVal)
    (pageN : Int) (ps psR : Option Params) (rs : List Rec) :
    ((filter_op m f v none).1).store = m.store ∧
    ((sort_op m sv none).1).store = m.store ∧
    ((search_op m qv none).1).store = m.store ∧
    ((next_op m c none).1).store = m.store ∧
    ((prev_op m c none).1).store = m.store ∧
    ((page_op m pageN c none).1).store = m.store ∧
    (init_op m ps none).inst.store = m.store ∧
    ((replace_op m psR none).1).store = [] ∧
    ((replace_op m psR (some rs)).1).store = rs := by
  refine ⟨rfl, rfl, rfl, ?_, ?_, ?_, ?_, rfl, ?_⟩
  · by_cases h : hasKey m.params "limit" <;> simp [next_op, h, fetch_apply]
  · by_cases h : hasKey m.params "limit" <;> simp [prev_op, h, fetch_apply]
  · by_cases h : hasKey m.params "limit" <;> simp [page_op, h, fetch_apply]
  · by_cases h : truthy m.init_ajax <;> simp [init_op, h, fetch_apply]
  · simp [replace_op, empty_op, fetch_apply]

/-- Claim C7: init is idempotent per instance.  Whatever the first call
did, it leaves the guard truthy whenever a request was dispatched (and an
already-truthy guard untouched), so a second init call — with any
parameters — changes nothing, dispatches nothing, and returns the promise
of exactly the deferred the first call returned. -/
theorem C7_init_idempotent (m : MC) (ps1 ps2 : Option Params) (o1 o2 : Option (List Rec)) :
    init_op (init_op m ps1 o1).inst ps2 o2 =
      ⟨(init_op m ps1 o1).inst, (init_op m ps1 o1).promise, false⟩ := by
  by_cases h : truthy m.init_ajax
  · simp [init_op, h]
  · have h1 : init_op m ps1 o1 =
        ⟨{ m with
            params := match ps1 with | some q => extendParams m.params q | none => m.params,
            store := fetch_apply m.store o1,
            init_ajax := .bool true, init_own := true,
            init_promise := m.next_id, next_id := m.next_id + 1 },
          m.next_id, true⟩ := by
      simp [init_op, h]
    rw [h1]
    simp [init_op, truthy]

/-- Claim C8: get(id) returns the first record in store order whose id
attribute has the same numeric value as the argument — parseInt coercion
on both sides, with strict comparison of the results, so a string id and
a numeric id with the same numeric value match each other, and the
presence guard in the code is redundant because an undefined id has no
numeric value; none models the null returned when no record matches. -/
theorem C8_get_by_numeric_id (store : List Rec) (idv : JVal) :
    cd_get store idv = store.find? (fun r => idNumEq r idv) ∧
    idNumEq [("id", JVal.str "5")] (JVal.num 5) = true ∧
    idNumEq [("id", JVal.num 7)] (JVal.str "7") = true := by
  refine ⟨?_, by decide, by decide⟩
  unfold cd_get
  congr 1
  funext r
  unfold idNumEq
  cases h : getProp r "id" <;> simp [jsParseInt, optIntEq]

/-- Claim C9: every verb of the api toolset fails with a synchronous
throw — modelled by the error result of the request method, produced
before any request object is built or dispatched — whenever the endpoint
setting is unset (the empty string, its falsy default). -/
theorem C9_unset_endpoint_throws (last : LastReq) (gp : GetParams) (seg : Option String)
    (data : Option Params) (path pv : JVal) (n1 n2 n3 n4 : Nat) :
    api_get "" last gp seg n1 = .error "Error: The API Toolset has not been setup correctly." ∧
    api_put "" last data path n2 = .error "Error: The API Toolset has not been setup correctly." ∧
    api_post "" last data path n3 = .error "Error: The API Toolset has not been setup correctly." ∧
    api_delete "" last data pv n4 = .error "Error: The API Toolset has not been setup correctly." :=
  ⟨rfl, rfl, rfl, rfl⟩

/-- Claim C10: empty deletes every own enumerable property — the records
and also the two initialisation bookkeeping fields set by the
constructor — so after empty the store is empty, the guard reads
undefined and the deferred field is gone, and a subsequent init call
finds a falsy guard and therefore dispatches a fresh network request
whose deferred is new, instead of returning the memoized first
outcome. -/
theorem C10_empty_resets_init (m : MC) (ps : Option Params) (o : Option (List Rec)) :
    (empty_op m).store = [] ∧
    (empty_op m).init_ajax = .undef ∧
    (empty_op m).init_own = false ∧
    (init_op (empty_op m) ps o).dispatched = true ∧
    (init_op (empty_op m) ps o).promise = m.next_id := by
  refine ⟨rfl, rfl, rfl, ?_, ?_⟩ <;> simp [init_op, empty_op, truthy]
